import Mathlib

/-!
Shallow embedding of the ResumePilot match-scoring core:

* `src/server/services/ats-engine.ts` — deterministic ATS scoring
  (keyword, relevancy, quantification, formatting, readability sub-scores);
* `src/server/services/gemini-ats-scorer.ts` — assisted scoring entry point,
  quota gate and deterministic fallback;
* `src/server/routes.ts` — broadcast registry (`broadcastToChannel`) and the
  batch cover-letter job orchestrator (`processBatchCoverLetters`).

Modelling conventions:

* JavaScript numbers are IEEE doubles; every arithmetic step the source
  performs on them here is exact on small integers and simple fractions, so
  they are modelled as exact rationals (`ℚ`).  `Math.round` is
  round-half-toward-positive-infinity, i.e. `fun x => ⌊x + 1/2⌋`.
* JavaScript strings are modelled as Lean `String` / `List Char`; the
  relevant regular expressions are small character classes and are embedded
  as explicit character predicates.
* The external Gemini API call, the persistence layer and the wall clock are
  modelled as explicit parameters (an `Except`-valued outcome, association
  lists, a date value), so the stateful functions become pure state
  transformers.
-/

/-- JavaScript `Math.round` on an exact rational: round half toward `+∞`. -/
def jsRound (q : ℚ) : ℤ := ⌊q + 1/2⌋

/-- Model of `Math.round` on a real argument (used where the source mixes in
`Math.sqrt`, which has no exact rational counterpart). -/
noncomputable def jsRoundR (x : ℝ) : ℤ := ⌊x + 1/2⌋

/-- JavaScript `a || b` on numbers restricted to the cases the sources use:
`undefined`/missing and `0` are falsy and select the default. -/
def jsOrQ (o : Option ℚ) (d : ℚ) : ℚ :=
  match o with
  | none => d
  | some x => if x = 0 then d else x

/-- JavaScript `s || d` on strings: the empty string is falsy. -/
def jsOrStr (s d : String) : String := if s = "" then d else s

/-- Truthiness of an optional string (`undefined` and `""` are falsy). -/
def jsTruthyStr (o : Option String) : Bool :=
  match o with
  | none => false
  | some s => s ≠ ""

/-- Split a character list at every character satisfying `p`.  Pieces between
two consecutive separators are empty, matching `String.prototype.split` with a
single-character-class regex; the sources always filter out the empty (or
all-whitespace) pieces afterwards, which also makes this agree with the
`/\s+/`-style regexes they use. -/
def splitOnPred (p : Char → Bool) : List Char → List (List Char)
  | [] => [[]]
  | c :: rest =>
    let r := splitOnPred p rest
    if p c then [] :: r
    else
      match r with
      | [] => [[c]]
      | w :: ws => (c :: w) :: ws

/-- JavaScript `haystack.includes(needle)`: substring containment. -/
def containsSub (needle : List Char) : List Char → Bool
  | [] => needle.isEmpty
  | c :: rest => needle.isPrefixOf (c :: rest) || containsSub needle rest

/-- Insertion into a JavaScript `Set` modelled as an insertion-ordered
duplicate-free list. -/
def setAdd (xs : List String) (x : String) : List String :=
  if xs.contains x then xs else xs ++ [x]

/-- JavaScript `\w` character class: `[A-Za-z0-9_]`. -/
def isWordChar (c : Char) : Bool :=
  decide (('a' ≤ c ∧ c ≤ 'z') ∨ ('A' ≤ c ∧ c ≤ 'Z') ∨ ('0' ≤ c ∧ c ≤ '9') ∨ c = '_')

/-- ASCII whitespace as matched by `\s` on the inputs in question. -/
def isWsChar (c : Char) : Bool := c.isWhitespace

/-! Section: Data model (`shared/schema.ts`, `resumeJsonSchema`) -/

structure PersonalInfo where
  name : String
  email : String
  phone : String
  location : String
  website : Option String := none
  linkedin : Option String := none
  github : Option String := none
deriving DecidableEq

structure ExperienceEntry where
  title : String
  company : String
  startDate : String
  endDate : String
  bullets : List String
deriving DecidableEq

structure EducationEntry where
  degree : String
  school : String
  graduation : String
  gpa : Option String := none
deriving DecidableEq

/-- The validated resume document (`ResumeJson`).  `skills` is a required
record from category name to skill list (a JavaScript object, hence always
truthy even when empty); `education` is optional. -/
structure ResumeJson where
  personalInfo : PersonalInfo
  summary : String
  experience : List ExperienceEntry
  skills : List (String × List String)
  education : Option (List EducationEntry) := none
deriving DecidableEq

/-! Section: ats-engine.ts: keyword extraction and sub-scores -/

/-- The list `COMMON_KEYWORDS` from `ats-engine.ts` (fallback tech-keyword list). -/
def COMMON_KEYWORDS : List String :=
  ["javascript", "python", "java", "typescript", "c++", "c#", "php", "ruby", "go", "rust",
   "react", "angular", "vue", "node.js", "express", "django", "flask", "spring", "laravel",
   "mysql", "postgresql", "mongodb", "redis", "elasticsearch", "sql", "nosql",
   "aws", "azure", "gcp", "docker", "kubernetes", "jenkins", "terraform", "ansible",
   "git", "agile", "scrum", "rest", "api", "microservices", "ci/cd", "testing"]

/-- The fixed multi-word phrase list of `extractKeywords`. -/
def techPhrases : List String :=
  ["machine learning", "data science", "full stack", "software engineering",
   "web development", "mobile development", "cloud computing", "data analysis",
   "project management", "quality assurance", "user experience", "database design"]

/-- Characters kept by the cleanup regex `[^\w\s\-\.]` replacement: word
characters, whitespace, hyphen and dot survive, everything else becomes a
space. -/
def keepChar (c : Char) : Char :=
  if isWordChar c || isWsChar c || c = '-' || c = '.' then c else ' '

/-- Model of `extractKeywords(text)` from `ats-engine.ts`: lower-case, replace
non-`[\w\s\-\.]` characters by spaces, split on whitespace, keep words of
length > 2, collect into an insertion-ordered set, then add each technical
phrase occurring in the lower-cased text with its whitespace removed.
(The guard rejecting non-string input cannot fire for a Lean `String`.) -/
def extractKeywords (text : String) : List String :=
  let lower : List Char := text.data.map Char.toLower
  let cleaned : List Char := lower.map keepChar
  let words : List String :=
    ((splitOnPred isWsChar cleaned).filter (fun w => w.length > 2)).map (fun w => String.mk w)
  let base : List String := words.foldl setAdd []
  techPhrases.foldl
    (fun acc phrase =>
      if containsSub phrase.data lower then
        setAdd acc (String.mk (phrase.data.filter (fun c => ¬ isWsChar c)))
      else acc)
    base

/-- The `keywords` entry of the engine breakdown.  All scores the engine
produces are integer-valued (`Math.round` results), so they are typed `ℤ`. -/
structure KeywordScoreData where
  score : ℤ
  matched : ℕ
  total : ℕ
  missing : List String
deriving DecidableEq

/-- The keyword set actually scored by `calculateKeywordScore`: extracted
keywords of length > 3 together with shorter ones on the common-tech list. -/
def importantJDKeywords (jdText : String) : List String :=
  (extractKeywords jdText).filter
    (fun keyword => keyword.length > 3 || COMMON_KEYWORDS.contains keyword)

/-- Model of `calculateKeywordScore(resumeText, jdText)` from `ats-engine.ts`. -/
def calculateKeywordScore (resumeText jdText : String) : KeywordScoreData :=
  let important := importantJDKeywords jdText
  let resumeKeywords := extractKeywords resumeText
  let matchedCount := (important.filter (fun k => resumeKeywords.contains k)).length
  let missing := (important.filter (fun k => ¬ resumeKeywords.contains k)).take 10
  let total := important.length
  let score : ℤ :=
    if total > 0 then jsRound ((matchedCount : ℚ) / (total : ℚ) * 40) else 0
  { score := score, matched := matchedCount, total := total, missing := missing }

structure RelevancyData where
  score : ℤ
  total : ℕ
deriving DecidableEq

structure QuantificationData where
  score : ℤ
  total : ℕ
  quantifiedBullets : ℕ
  totalBullets : ℕ
deriving DecidableEq

structure FormattingData where
  score : ℤ
  total : ℕ
deriving DecidableEq

structure ReadabilityData where
  score : ℤ
  total : ℕ
  gradeLevel : ℚ
deriving DecidableEq

/-- The metric-pattern test of `calculateQuantificationScore`:
`/\d+[%$]?|\$\d+|\d+\+?\s*(users?|customers?|projects?|team|people|million|thousand|k\b)/i`.
Its first alternative `\d+[%$]?` matches as soon as the bullet contains any
decimal digit (the `[%$]` suffix is optional), and each remaining alternative
also requires a digit, so the whole test holds iff the bullet contains a
digit.  The embedding uses that equivalent form. -/
def bulletHasMetric (bullet : String) : Bool :=
  bullet.data.any Char.isDigit

/-- Model of `calculateQuantificationScore(resume)` from `ats-engine.ts`: walk every
experience bullet, count the quantified ones, score
`Math.round((quantified/total) * 15)` with ratio `0` when there are no
bullets. -/
def calculateQuantificationScore (resume : ResumeJson) : QuantificationData :=
  let totalBullets : ℕ := (resume.experience.map (fun exp => exp.bullets.length)).sum
  let quantifiedBullets : ℕ :=
    (resume.experience.map (fun exp => (exp.bullets.filter bulletHasMetric).length)).sum
  let percentage : ℚ :=
    if totalBullets > 0 then (quantifiedBullets : ℚ) / (totalBullets : ℚ) else 0
  { score := jsRound (percentage * 15), total := 15,
    quantifiedBullets := quantifiedBullets, totalBullets := totalBullets }

/-- Bullets penalised by `calculateFormattingScore` (length outside 20–150;
string length counts characters, which agrees with the JavaScript UTF-16
length on the basic plane). -/
def badBulletCount (resume : ResumeJson) : ℕ :=
  (resume.experience.map
    (fun exp => (exp.bullets.filter (fun b => b.length < 20 || b.length > 150)).length)).sum

/-- Model of `calculateFormattingScore(resume)` from `ats-engine.ts`: start at 10,
subtract fixed penalties and half a point per bad bullet, then
`Math.max(0, Math.round(score))`.  The `if (!resume.skills) score -= 2`
deduction can never fire: `skills` is a required object in the schema and a
JavaScript object is always truthy, so it is omitted (it contributes 0). -/
def calculateFormattingScore (resume : ResumeJson) : FormattingData :=
  let d1 : ℚ := if resume.personalInfo.name = "" ∨ resume.personalInfo.email = "" then 2 else 0
  let d2 : ℚ := if resume.summary.length < 50 then 1 else 0
  let d3 : ℚ := if resume.experience = [] then 3 else 0
  let raw : ℚ := 10 - d1 - d2 - d3 - (badBulletCount resume : ℚ) * (1/2)
  { score := max 0 (jsRound raw), total := 10 }

/-- Sentence segments of `calculateReadabilityScore`: split on `[.!?]+` and
keep segments that are non-empty after trimming (equivalently: contain a
non-whitespace character). -/
def sentencesOf (text : String) : List (List Char) :=
  (splitOnPred (fun c => c == '.' || c == '!' || c == '?') text.data).filter
    (fun s => s.any (fun c => !c.isWhitespace))

/-- Word segments of `calculateReadabilityScore`: split on whitespace, keep
the non-empty pieces. -/
def wordsOf (text : String) : List (List Char) :=
  (splitOnPred isWsChar text.data).filter (fun w => w.length > 0)

/-- The vowel class `[aeiouAEIOU]` of the syllable estimate. -/
def isVowelChar (c : Char) : Bool :=
  ['a', 'e', 'i', 'o', 'u', 'A', 'E', 'I', 'O', 'U'].contains c

/-- Model of `calculateReadabilityScore(text)` from `ats-engine.ts`.  The float
constants 0.39, 11.8 and 15.59 are modelled as exact rationals; the branch
structure (and hence the returned score) does not depend on that choice. -/
def calculateReadabilityScore (text : String) : ReadabilityData :=
  let sentences := sentencesOf text
  let words := wordsOf text
  let syllables : ℕ := words.foldl (fun acc w => acc + max 1 (w.filter isVowelChar).length) 0
  if sentences.length = 0 ∨ words.length = 0 then
    { score := 5, total := 10, gradeLevel := 12 }
  else
    let avgSentenceLength : ℚ := (words.length : ℚ) / (sentences.length : ℚ)
    let avgSyllablesPerWord : ℚ := (syllables : ℚ) / (words.length : ℚ)
    let gradeLevel : ℚ := 39/100 * avgSentenceLength + 118/10 * avgSyllablesPerWord - 1559/100
    let readabilityScore : ℤ :=
      if 8 ≤ gradeLevel ∧ gradeLevel ≤ 12 then 10
      else if 6 ≤ gradeLevel ∧ gradeLevel ≤ 14 then 7
      else 4
    { score := readabilityScore, total := 10,
      gradeLevel := ((jsRound (gradeLevel * 10) : ℤ) : ℚ) / 10 }

structure ATSBreakdown where
  keywords : KeywordScoreData
  relevancy : RelevancyData
  quantification : QuantificationData
  formatting : FormattingData
  readability : ReadabilityData
deriving DecidableEq

structure ATSResult where
  overall : ℤ
  breakdown : ATSBreakdown
  suggestions : List String
deriving DecidableEq

/-- Model of `generateSuggestions(breakdown)` from `ats-engine.ts`. -/
def generateSuggestions (breakdown : ATSBreakdown) : List String :=
  let s1 : List String :=
    if breakdown.keywords.missing.length > 0 then
      ["Add missing keywords: " ++ String.intercalate ", " (breakdown.keywords.missing.take 3)]
    else []
  let s2 : List String :=
    if breakdown.quantification.score < 10 then
      let needed := breakdown.quantification.totalBullets - breakdown.quantification.quantifiedBullets
      ["Add metrics to " ++ toString needed ++ " more bullet points (%, $, #users)"]
    else []
  let s3 : List String :=
    if breakdown.readability.gradeLevel > 12 then
      ["Simplify sentence structure to improve readability"]
    else []
  let s4 : List String :=
    if breakdown.relevancy.score < 20 then
      ["Better align experience descriptions with job requirements"]
    else []
  let s5 : List String :=
    if breakdown.formatting.score < 8 then
      ["Improve resume structure and ensure all required sections are complete"]
    else []
  (s1 ++ s2 ++ s3 ++ s4 ++ s5).take 5

/-- The flat text `computeATSScore` assembles from the resume (all fields are
schema-guaranteed strings, so the falsy defaults never fire; the final
`filter(Boolean)` drops the empty strings before joining with spaces). -/
def computeATSScoreText (resume : ResumeJson) : String :=
  let parts : List String :=
    [resume.personalInfo.name, resume.personalInfo.email, resume.summary]
    ++ resume.experience.flatMap (fun exp => [exp.title, exp.company] ++ exp.bullets)
    ++ ((resume.skills.map Prod.snd).flatten.filter (fun s => s ≠ ""))
    ++ (resume.education.getD []).flatMap (fun edu => [edu.degree, edu.school])
  String.intercalate " " (parts.filter (fun s => s ≠ ""))

/-- The sub-score cap `40` of the keyword-coverage formula (`* 40` in
`calculateKeywordScore` and the clamp bound in the assisted scorer); the
engine stores matched/total keyword counts rather than a maxPoints field for
this sub-score, so the constant lives in the formulas. -/
def keywordsMaxPoints : ℕ := 40

/-- Model of `computeATSScore(resume, jdText)` from `ats-engine.ts`.  The relevancy
proxy is `Math.min(25, Math.round(score * 0.6 + 10))`; `0.6` is modelled as
the exact rational `6/10`, which yields the same rounded value for every
integer keyword score. -/
def computeATSScore (resume : ResumeJson) (jdText : String) : ATSResult :=
  let resumeText := computeATSScoreText resume
  let keywordData := calculateKeywordScore resumeText jdText
  let quantificationData := calculateQuantificationScore resume
  let formattingData := calculateFormattingScore resume
  let readabilityData := calculateReadabilityScore (resumeText ++ " " ++ jdText)
  let relevancyScore : ℤ := min 25 (jsRound ((keywordData.score : ℚ) * (6/10) + 10))
  let breakdown : ATSBreakdown :=
    { keywords := keywordData,
      relevancy := { score := relevancyScore, total := 25 },
      quantification := quantificationData,
      formatting := formattingData,
      readability := readabilityData }
  let overall := breakdown.keywords.score + breakdown.relevancy.score +
    breakdown.quantification.score + breakdown.formatting.score + breakdown.readability.score
  { overall := overall, breakdown := breakdown, suggestions := generateSuggestions breakdown }

/-- Model of `calculateCosineSimilarity(a, b)` from `ats-engine.ts`, with `Math.sqrt`
modelled as `Real.sqrt`.  (Real division by zero yields 0 where JavaScript
would yield `NaN`; none of the settled claims depends on the zero-norm
case.) -/
noncomputable def calculateCosineSimilarity (a b : List ℝ) : ℝ :=
  if a.length ≠ b.length then 0
  else
    let dotProduct := ((a.zip b).map (fun p => p.1 * p.2)).sum
    let normA := (a.map (fun x => x * x)).sum
    let normB := (b.map (fun x => x * x)).sum
    dotProduct / (Real.sqrt normA * Real.sqrt normB)

/-- Model of `computeATSScoreWithEmbeddings` from `ats-engine.ts`: take the base
result; when both embeddings are supplied, replace the relevancy score by
`Math.round(cosineSimilarity * 25)` and recompute `overall` as the sum of the
five sub-scores. -/
noncomputable def computeATSScoreWithEmbeddings (resume : ResumeJson) (jdText : String)
    (resumeEmbedding jdEmbedding : Option (List ℝ)) : ATSResult :=
  let baseResult := computeATSScore resume jdText
  match resumeEmbedding, jdEmbedding with
  | some re, some je =>
    let cosineSim := calculateCosineSimilarity re je
    let enhancedRelevancyScore : ℤ := jsRoundR (cosineSim * 25)
    let breakdown : ATSBreakdown :=
      { baseResult.breakdown with relevancy := { score := enhancedRelevancyScore, total := 25 } }
    { overall := breakdown.keywords.score + enhancedRelevancyScore +
        breakdown.quantification.score + breakdown.formatting.score + breakdown.readability.score,
      breakdown := breakdown,
      suggestions := baseResult.suggestions }
  | _, _ => baseResult

/-! Section: gemini-ats-scorer.ts: quota gate, fallback scorer and assisted entry point -/

/-- The constant `MAX_DAILY_REQUESTS` from `gemini-ats-scorer.ts` (buffer below the
50-request free tier of the assisted service). -/
def MAX_DAILY_REQUESTS : ℕ := 45

/-- The module-level quota bookkeeping `{dailyRequestCount, lastResetDate}`.
Calendar days (`new Date().toDateString()` values) are modelled as an opaque
numeric day identifier: the source only ever compares them for equality. -/
structure QuotaState where
  dailyRequestCount : ℕ
  lastResetDate : ℕ
deriving DecidableEq

/-- Model of `checkQuotaLimit()` with the current day supplied explicitly: on the
first check of a new day reset the count to 0 and remember the day, then
report `dailyRequestCount < MAX_DAILY_REQUESTS`.  Returns the answer together
with the updated module state. -/
def checkQuotaLimit (today : ℕ) (s : QuotaState) : Bool × QuotaState :=
  let s' : QuotaState :=
    if today ≠ s.lastResetDate then { dailyRequestCount := 0, lastResetDate := today } else s
  (decide (s'.dailyRequestCount < MAX_DAILY_REQUESTS), s')

/-- Model of `incrementQuotaCount()`: unconditionally bump the day counter. -/
def incrementQuotaCount (s : QuotaState) : QuotaState :=
  { s with dailyRequestCount := s.dailyRequestCount + 1 }

/-- Model of `convertResumeToText(resume)` from `gemini-ats-scorer.ts`: the labelled
plain-text rendering sent to the assisted scorer and searched by the fallback
keyword matcher. -/
def convertResumeToText (resume : ResumeJson) : String :=
  let pi := resume.personalInfo
  let infoParts : List String :=
    ["Name: " ++ jsOrStr pi.name "N/A",
     "Email: " ++ jsOrStr pi.email "N/A",
     "Phone: " ++ jsOrStr pi.phone "N/A",
     "Location: " ++ jsOrStr pi.location "N/A"]
    ++ (if jsTruthyStr pi.linkedin then ["LinkedIn: " ++ pi.linkedin.getD ""] else [])
    ++ (if jsTruthyStr pi.github then ["GitHub: " ++ pi.github.getD ""] else [])
  let summaryParts : List String :=
    if resume.summary ≠ "" then ["\nPROFESSIONAL SUMMARY:\n" ++ resume.summary] else []
  let expParts : List String :=
    if resume.experience ≠ [] then
      "\nWORK EXPERIENCE:" ::
        resume.experience.flatMap (fun exp =>
          ["\n" ++ jsOrStr exp.title "N/A" ++ " at " ++ jsOrStr exp.company "N/A",
           jsOrStr exp.startDate "N/A" ++ " - " ++ jsOrStr exp.endDate "N/A"]
          ++ exp.bullets.map (fun b => "• " ++ b))
    else []
  let skillParts : List String :=
    "\nSKILLS:" ::
      (resume.skills.filter (fun p => p.2 ≠ [])).map
        (fun p => p.1 ++ ": " ++ String.intercalate ", " p.2)
  let eduParts : List String :=
    match resume.education with
    | some edus =>
      if edus ≠ [] then
        "\nEDUCATION:" ::
          edus.flatMap (fun edu =>
            [jsOrStr edu.degree "N/A" ++ " - " ++ jsOrStr edu.school "N/A"]
            ++ (if edu.graduation ≠ "" then ["Graduation: " ++ edu.graduation] else [])
            ++ (if jsTruthyStr edu.gpa then ["GPA: " ++ edu.gpa.getD ""] else []))
      else []
    | none => []
  String.intercalate "\n" (infoParts ++ summaryParts ++ expParts ++ skillParts ++ eduParts)

/-- The raw (schema-unchecked) sub-objects of a parsed assisted response.
Every numeric field is `any` in the source, hence `Option ℚ` here (`none` for
absent/undefined). -/
structure GeminiRawKeywords where
  score : Option ℚ := none
  matched : Option ℚ := none
  total : Option ℚ := none
  missing : Option (List String) := none
deriving DecidableEq

structure GeminiRawScore where
  score : Option ℚ := none
deriving DecidableEq

structure GeminiRawQuant where
  score : Option ℚ := none
  quantifiedBullets : Option ℚ := none
  totalBullets : Option ℚ := none
deriving DecidableEq

structure GeminiRawRead where
  score : Option ℚ := none
  gradeLevel : Option ℚ := none
deriving DecidableEq

/-- A successfully JSON-parsed assisted response, before validation. -/
structure GeminiAnalysis where
  keywords : Option GeminiRawKeywords := none
  relevancy : Option GeminiRawScore := none
  quantification : Option GeminiRawQuant := none
  formatting : Option GeminiRawScore := none
  readability : Option GeminiRawRead := none
  suggestions : Option (List String) := none
deriving DecidableEq

/-- The file `gemini-ats-scorer.ts` declares its own (structurally identical) result
interfaces; unvalidated response numbers may be fractional, so these carry
`ℚ` fields. -/
structure GKeywordData where
  score : ℚ
  matched : ℚ
  total : ℚ
  missing : List String
deriving DecidableEq

structure GScoreData where
  score : ℚ
  total : ℕ
deriving DecidableEq

structure GQuantData where
  score : ℚ
  total : ℕ
  quantifiedBullets : ℚ
  totalBullets : ℚ
deriving DecidableEq

structure GReadData where
  score : ℚ
  total : ℕ
  gradeLevel : ℚ
deriving DecidableEq

structure GATSBreakdown where
  keywords : GKeywordData
  relevancy : GScoreData
  quantification : GQuantData
  formatting : GScoreData
  readability : GReadData
deriving DecidableEq

structure GATSResult where
  overall : ℚ
  breakdown : GATSBreakdown
  suggestions : List String
deriving DecidableEq

/-- The `Validate and sanitize scores` block of `computeGeminiATSScore`:
every sub-score is clamped into its nominal range with
`Math.min(hi, Math.max(0, raw || 0))` before use. -/
def sanitizeGeminiBreakdown (analysis : GeminiAnalysis) : GATSBreakdown :=
  { keywords :=
      { score := min 40 (max 0 (jsOrQ (analysis.keywords.bind (fun k => k.score)) 0)),
        matched := max 0 (jsOrQ (analysis.keywords.bind (fun k => k.matched)) 0),
        total := max 1 (jsOrQ (analysis.keywords.bind (fun k => k.total)) 1),
        missing :=
          match analysis.keywords.bind (fun k => k.missing) with
          | some l => l.take 5
          | none => [] },
    relevancy :=
      { score := min 25 (max 0 (jsOrQ (analysis.relevancy.bind (fun r => r.score)) 0)),
        total := 25 },
    quantification :=
      { score := min 15 (max 0 (jsOrQ (analysis.quantification.bind (fun q => q.score)) 0)),
        total := 15,
        quantifiedBullets := max 0 (jsOrQ (analysis.quantification.bind (fun q => q.quantifiedBullets)) 0),
        totalBullets := max 1 (jsOrQ (analysis.quantification.bind (fun q => q.totalBullets)) 1) },
    formatting :=
      { score := min 10 (max 0 (jsOrQ (analysis.formatting.bind (fun f => f.score)) 0)),
        total := 10 },
    readability :=
      { score := min 10 (max 0 (jsOrQ (analysis.readability.bind (fun r => r.score)) 0)),
        total := 10,
        gradeLevel := max 1 (jsOrQ (analysis.readability.bind (fun r => r.gradeLevel)) 10) } }

/-- Result assembly for a successfully parsed assisted response: sanitized
breakdown, `overall` as the sum of the five sanitized scores, suggestions
truncated to 5 (or the fixed fallback line when not an array). -/
def sanitizeGeminiResult (analysis : GeminiAnalysis) : GATSResult :=
  let breakdown := sanitizeGeminiBreakdown analysis
  { overall := breakdown.keywords.score + breakdown.relevancy.score +
      breakdown.quantification.score + breakdown.formatting.score + breakdown.readability.score,
    breakdown := breakdown,
    suggestions :=
      match analysis.suggestions with
      | some l => l.take 5
      | none => ["Resume analyzed successfully"] }

/-- The stop-word list of the fallback keyword extractor. -/
def fallbackStopWords : List String :=
  ["the", "and", "for", "are", "but", "not", "you", "all", "can", "had", "her", "was",
   "one", "our", "out", "day", "get", "has", "him", "his", "how", "may", "new", "now",
   "old", "see", "two", "way", "who", "boy", "did", "its", "let", "put", "say", "she",
   "too", "use"]

/-- Model of `getFallbackATSScore(resume, jdText)` from `gemini-ats-scorer.ts`: the
deterministic strategy used whenever the assisted call is unavailable or
fails.  `jdLower.match(/\b\w{3,}\b/g)` is embedded as the maximal
word-character runs of length ≥ 3. -/
def getFallbackATSScore (resume : ResumeJson) (jdText : String) : GATSResult :=
  let resumeText : List Char := (convertResumeToText resume).data.map Char.toLower
  let jdLower : List Char := jdText.data.map Char.toLower
  let jdWords : List String :=
    ((splitOnPred (fun c => !isWordChar c) jdLower).filter (fun w => w.length ≥ 3)).map
      (fun w => String.mk w)
  let uniqueWords : List String := jdWords.foldl setAdd []
  let commonKeywords : List String :=
    (uniqueWords.filter (fun word => !fallbackStopWords.contains word && word.length > 3)).take 20
  let matchedKeywords : List String :=
    commonKeywords.filter (fun kw => containsSub kw.data resumeText)
  let keywordScore : ℚ :=
    ((jsRound ((matchedKeywords.length : ℚ) / ((max commonKeywords.length 1 : ℕ) : ℚ) * 40) : ℤ) : ℚ)
  let totalBullets : ℕ := (resume.experience.map (fun exp => exp.bullets.length)).sum
  let quantifiedBullets : ℕ :=
    (resume.experience.map (fun exp => (exp.bullets.filter bulletHasMetric).length)).sum
  let quantificationScore : ℚ :=
    if totalBullets > 0
    then ((jsRound ((quantifiedBullets : ℚ) / (totalBullets : ℚ) * 15) : ℤ) : ℚ)
    else 0
  let formattingScore : ℤ :=
    10 - (if resume.personalInfo.name = "" ∨ resume.personalInfo.email = "" then 3 else 0)
       - (if resume.summary.length < 50 then 2 else 0)
       - (if resume.experience = [] then 3 else 0)
  let breakdown : GATSBreakdown :=
    { keywords :=
        { score := keywordScore,
          matched := (matchedKeywords.length : ℚ),
          total := (commonKeywords.length : ℚ),
          missing := (commonKeywords.filter (fun kw => !matchedKeywords.contains kw)).take 5 },
      relevancy := { score := min 25 (keywordScore + 5), total := 25 },
      quantification :=
        { score := quantificationScore, total := 15,
          quantifiedBullets := (quantifiedBullets : ℚ), totalBullets := (totalBullets : ℚ) },
      formatting := { score := ((max 0 formattingScore : ℤ) : ℚ), total := 10 },
      readability := { score := 8, total := 10, gradeLevel := 10 } }
  { overall := breakdown.keywords.score + breakdown.relevancy.score +
      breakdown.quantification.score + breakdown.formatting.score + breakdown.readability.score,
    breakdown := breakdown,
    suggestions :=
      ["Add more relevant keywords from the job description",
       "Include specific metrics and numbers in experience bullets",
       "Ensure all required sections are complete and well-formatted",
       "Tailor your experience descriptions to match job requirements"] }

/-- Outcome of the assisted call inside the `try` block of
`computeGeminiATSScore`: `threw` covers any exception (client construction,
the network call, reading the response); `parsed none` covers a response text
with no JSON object or one that fails `JSON.parse` (the inner catch);
`parsed (some a)` is a successfully parsed response. -/
inductive GeminiCallOutcome where
  | threw
  | parsed (analysis : Option GeminiAnalysis)
deriving DecidableEq

/-- The `try` block of `computeGeminiATSScore`.  `apiKeyValid` models the
key-presence check (`!apiKey`, the empty string, the placeholder and
`default_key` are invalid); `hasQuota` models the `checkQuotaLimit()` answer
at the call. -/
def geminiTryBody (resume : ResumeJson) (jdText : String)
    (apiKeyValid hasQuota : Bool) (outcome : GeminiCallOutcome) : Except String GATSResult :=
  if !apiKeyValid then .ok (getFallbackATSScore resume jdText)
  else if !hasQuota then .ok (getFallbackATSScore resume jdText)
  else
    match outcome with
    | .threw => .error "Error in Gemini ATS scoring"
    | .parsed none => .ok (getFallbackATSScore resume jdText)
    | .parsed (some analysis) => .ok (sanitizeGeminiResult analysis)

/-- Model of `computeGeminiATSScore` with the outer `catch`: an escaped exception is
converted into the deterministic fallback result, so the caller always gets a
result value. -/
def computeGeminiATSScore (resume : ResumeJson) (jdText : String)
    (apiKeyValid hasQuota : Bool) (outcome : GeminiCallOutcome) : GATSResult :=
  match geminiTryBody resume jdText apiKeyValid hasQuota outcome with
  | .ok r => r
  | .error _ => getFallbackATSScore resume jdText

/-! Section: routes.ts: broadcast registry and batch-job orchestrator -/

/-- The constant `WebSocket.OPEN` from the `ws` library (CONNECTING 0, OPEN 1, CLOSING 2,
CLOSED 3). -/
def WS_OPEN : ℕ := 1

/-- A live connection handle; only its identity and `readyState` matter to
the registry. -/
structure WsConn where
  connId : ℕ
  readyState : ℕ
deriving DecidableEq

/-- Model of `JSON.stringify` on a channel message: the serialized wire message is a
function of the channel and the payload alone, modelled structurally. -/
structure WsMessage (α : Type) where
  channel : String
  data : α
deriving DecidableEq

/-- The module-level `wsConnections: Map<string, Set<WebSocket>>`, modelled
as an association list from channel id to its subscriber set. -/
def WsRegistry : Type := List (String × List WsConn)

/-- Model of `broadcastToChannel(channel, data)` from `routes.ts`, returning the list
of performed sends.  An absent channel entry is a no-op (the `else` branch
only logs); a present set is serialized once and sent to every member whose
`readyState` is `OPEN`. -/
def broadcastToChannel {α : Type} (wsConnections : WsRegistry) (channel : String) (data : α) :
    List (WsConn × WsMessage α) :=
  match wsConnections.lookup channel with
  | none => []
  | some connections =>
    let message : WsMessage α := { channel := channel, data := data }
    (connections.filter (fun ws => ws.readyState == WS_OPEN)).map (fun ws => (ws, message))

/-- Job status values of the `jobs` table. -/
inductive JobStatus where
  | pending
  | running
  | completed
  | error
deriving DecidableEq

/-- A stored job row (only the parts the settled claims inspect). -/
structure StoredJob where
  jobId : ℕ
  status : JobStatus
deriving DecidableEq

/-- Model of the `storage.createJob` call (status `pending`) as performed by the
`POST /api/covers/batch` handler: insert a row with a fresh id (the source
uses `randomUUID()`) in status `pending` and hand the id back to the caller
immediately, before any processing. -/
def enqueueBatchJob (store : List StoredJob) (freshId : ℕ) : ℕ × List StoredJob :=
  (freshId, store ++ [{ jobId := freshId, status := JobStatus.pending }])

/-- Model of `storage.getJob(id).status` as exposed by `GET /api/jobs/:id`. -/
def getJobStatus (store : List StoredJob) (id : ℕ) : Option JobStatus :=
  (store.find? (fun j => j.jobId == id)).map (fun j => j.status)

/-- The job-description row fields used by the batch loop. -/
structure JobDescRow where
  jdId : String
  title : String
  company : String
  rawText : String
deriving DecidableEq

/-- A stored cover letter (the per-target artifact). -/
structure CoverLetterDoc where
  coverId : String
  contentMd : String
deriving DecidableEq

/-- One entry of the batch results list. -/
structure BatchResultEntry where
  jdId : String
  jdTitle : String
  coverId : Option String
  errorMsg : Option String
  success : Bool
deriving DecidableEq

/-- One `broadcastToChannel` payload on the `batch:{jobId}` channel. -/
structure ProgressEvent where
  progress : ℤ
  current : Option String
  status : String
  results : Option (List BatchResultEntry)
deriving DecidableEq

/-- The per-target loop of `processBatchCoverLetters`.  `gen` is the combined
per-target operation (`generateCoverLetter` followed by
`storage.createCoverLetter`), which either yields the stored cover letter or
throws.  `n` is `jds.length`; `i` the running loop index (it advances over
skipped targets too).  A target whose job-description lookup returned
`undefined` is skipped by `if (!jd) continue` before any event or result is
produced.  A present target first gets a progress event
(`Math.round((i / jds.length) * 100)`), then a `success: true` entry on
success or — via the per-target catch — a `success: false` entry with the
fixed reason, and the loop continues either way. -/
def processTargetsAux (gen : JobDescRow → Except Unit CoverLetterDoc) (n : ℕ) :
    ℕ → List (Option JobDescRow) → List BatchResultEntry × List ProgressEvent
  | _, [] => ([], [])
  | i, none :: rest => processTargetsAux gen n (i + 1) rest
  | i, some jd :: rest =>
    let ev : ProgressEvent :=
      { progress := jsRound ((i : ℚ) / (n : ℚ) * 100),
        current := some jd.title, status := "generating", results := none }
    let entry : BatchResultEntry :=
      match gen jd with
      | .ok cover =>
        { jdId := jd.jdId, jdTitle := jd.title, coverId := some cover.coverId,
          errorMsg := none, success := true }
      | .error _ =>
        { jdId := jd.jdId, jdTitle := jd.title, coverId := none,
          errorMsg := some "Generation failed", success := false }
    let rs := processTargetsAux gen n (i + 1) rest
    (entry :: rs.1, ev :: rs.2)

/-- Model of `processBatchCoverLetters(jobId)` from `routes.ts` as a pure state
transformer.  `jobFound` models the initial `storage.getJob` lookup;
`resume` the `storage.getResume(resumeId)` result; `jds` the
already-resolved `storage.getJobDescription` lookups (the claims settled here
assume those promises resolve, matching the `Promise.all` in the source).  The
returned triple is (ordered `updateJobStatus` writes, final results list,
ordered `batch:{jobId}` progress events).  Storage and broadcast are total in
the model, so the outer catch (status `error`) is reachable only through the
explicit resume-missing branch. -/
def processBatchCoverLetters (jobFound : Bool) (resume : Option ResumeJson)
    (gen : JobDescRow → Except Unit CoverLetterDoc) (jds : List (Option JobDescRow)) :
    List JobStatus × List BatchResultEntry × List ProgressEvent :=
  if !jobFound then ([], [], [])
  else
    match resume with
    | none => ([JobStatus.running, JobStatus.error], [], [])
    | some _ =>
      let rs := processTargetsAux gen jds.length 0 jds
      let finalEv : ProgressEvent :=
        { progress := 100, current := none, status := "completed", results := some rs.1 }
      ([JobStatus.running, JobStatus.completed], rs.1, rs.2 ++ [finalEv])

/-- The forward transition relation of the job state machine:
`pending → running → {completed, error}`. -/
def statusStep (a b : JobStatus) : Prop :=
  (a = JobStatus.pending ∧ b = JobStatus.running) ∨
  (a = JobStatus.running ∧ (b = JobStatus.completed ∨ b = JobStatus.error))

instance (a b : JobStatus) : Decidable (statusStep a b) := by
  unfold statusStep; infer_instance

/-! Section: Claim-side comparison definitions and concrete fixtures -/

/-- The important-keyword set as the specification text describes it: target
keywords of length > 3 only (the fixed multi-word phrases enter through
`extractKeywords` with their whitespace removed and are all longer than 3
characters).  This definition follows the specification wording and exists
only to compare it against `importantJDKeywords` from the source, which
additionally keeps shorter keywords from the common-technology list. -/
def claimImportantKeywords (jdText : String) : List String :=
  (extractKeywords jdText).filter (fun keyword => keyword.length > 3)

/-- The keyword sub-score as the specification text describes it:
`round(40 × matchedCount / totalCount)` over `claimImportantKeywords`, `0`
when the set is empty. -/
def claimKeywordScore (resumeText jdText : String) : ℤ :=
  let important := claimImportantKeywords jdText
  let resumeKeywords := extractKeywords resumeText
  let matchedCount := (important.filter (fun k => resumeKeywords.contains k)).length
  if 0 < important.length
  then jsRound ((40 : ℚ) * (matchedCount : ℚ) / (important.length : ℚ))
  else 0

/-- A minimal well-formed resume used as a concrete input in witnesses and
counterexamples. -/
def sampleResume : ResumeJson :=
  { personalInfo :=
      { name := "Ada Lovelace", email := "ada@example.com",
        phone := "555-0100", location := "London" },
    summary := "Engineer with a decade of experience building analytical engines.",
    experience :=
      [{ title := "Engineer", company := "Analytical Engines Ltd",
         startDate := "2015", endDate := "2020",
         bullets :=
           ["Improved throughput by 40% across the fleet",
            "Wrote documentation for the analytical engine team"] }],
    skills := [("Languages", ["python", "typescript"])],
    education := none }

/-- A generation strategy that fails exactly on the target with id `"j2"`. -/
def sampleGen (jd : JobDescRow) : Except Unit CoverLetterDoc :=
  if jd.jdId = "j2" then Except.error ()
  else Except.ok { coverId := "cover-" ++ jd.jdId, contentMd := "Dear Hiring Manager" }

def sampleJd1 : JobDescRow :=
  { jdId := "j1", title := "Backend Engineer", company := "Acme", rawText := "python api" }

def sampleJd2 : JobDescRow :=
  { jdId := "j2", title := "Frontend Engineer", company := "Acme", rawText := "react" }

def sampleJd3 : JobDescRow :=
  { jdId := "j3", title := "Data Engineer", company := "Acme", rawText := "sql python" }

/-- A parsed assisted response with out-of-contract values (keyword score far
above 40, negative relevancy), used to exercise the sanitizer. -/
def sampleAnalysis : GeminiAnalysis :=
  { keywords := some { score := some 100, matched := some 3, total := some 7, missing := some ["go", "aws", "sql", "git", "ruby", "rust"] },
    relevancy := some { score := some (-5) },
    quantification := some { score := some 99 },
    formatting := some { score := some 10 },
    readability := some { score := some 12, gradeLevel := some 0 },
    suggestions := some ["Add keywords"] }

/-- A registry with one channel whose only subscriber is a closed connection
(`readyState` 3 = CLOSED). -/
def closedConnRegistry : WsRegistry :=
  [("score:r1:j1", [{ connId := 0, readyState := 3 }])]

/-! Section: Helper lemmas -/

theorem jsRound_nonneg {q : ℚ} (h : 0 ≤ q) : 0 ≤ jsRound q := by
  unfold jsRound
  exact Int.le_floor.mpr (by exact_mod_cast (by linarith : (0 : ℚ) ≤ q + 1/2))

theorem le_jsRound {L : ℤ} {q : ℚ} (h : (L : ℚ) ≤ q) : L ≤ jsRound q := by
  unfold jsRound
  exact Int.le_floor.mpr (by linarith)

theorem jsRound_le {q : ℚ} {B : ℤ} (h : q ≤ (B : ℚ)) : jsRound q ≤ B := by
  unfold jsRound
  have h3 : ⌊q + 1/2⌋ < B + 1 := Int.floor_lt.mpr (by push_cast; linarith)
  omega

theorem quota_iterate (s : QuotaState) (n : ℕ) :
    incrementQuotaCount^[n] s =
      { dailyRequestCount := s.dailyRequestCount + n, lastResetDate := s.lastResetDate } := by
  induction n with
  | zero => simp
  | succ k ih =>
    rw [Function.iterate_succ_apply', ih]
    simp [incrementQuotaCount]
    omega

theorem getJobStatus_append_fresh (store : List StoredJob) (freshId : ℕ)
    (h : ∀ j ∈ store, j.jobId ≠ freshId) :
    getJobStatus (store ++ [{ jobId := freshId, status := JobStatus.pending }]) freshId =
      some JobStatus.pending := by
  unfold getJobStatus
  induction store with
  | nil => simp
  | cons a t ih =>
    have ha : (a.jobId == freshId) = false := by
      have := h a (by simp)
      simpa using this
    simp only [List.cons_append, List.find?_cons, ha]
    exact ih (fun j hj => h j (by simp [hj]))

/-! Section: C3 -/

/-- C3: in the batch processor a per-target failure is recorded and the loop
continues: for three resolved targets where the operation for the second
target fails and the other two succeed, the status writes of the job are
`running, completed` (it reaches `completed`, not `error`) and the results
list has exactly one `success: false` entry and two `success: true`
entries. -/
theorem batch_one_failing_target_never_aborts (resume : ResumeJson)
    (jd1 jd2 jd3 : JobDescRow) (gen : JobDescRow → Except Unit CoverLetterDoc)
    (c1 c3 : CoverLetterDoc)
    (h1 : gen jd1 = Except.ok c1) (h2 : gen jd2 = Except.error ())
    (h3 : gen jd3 = Except.ok c3) :
    (processBatchCoverLetters true (some resume) gen [some jd1, some jd2, some jd3]).1 =
      [JobStatus.running, JobStatus.completed] ∧
    ((processBatchCoverLetters true (some resume) gen [some jd1, some jd2, some jd3]).2.1.filter
      (fun r => !r.success)).length = 1 ∧
    ((processBatchCoverLetters true (some resume) gen [some jd1, some jd2, some jd3]).2.1.filter
      (fun r => r.success)).length = 2 := by
  simp [processBatchCoverLetters, processTargetsAux, h1, h2, h3, List.filter]

/-- Witness for C3 at a concrete batch: `sampleGen` fails exactly on
`sampleJd2`. -/
theorem batch_one_failing_target_never_aborts_witness :
    (processBatchCoverLetters true (some sampleResume) sampleGen
      [some sampleJd1, some sampleJd2, some sampleJd3]).1 =
      [JobStatus.running, JobStatus.completed] ∧
    ((processBatchCoverLetters true (some sampleResume) sampleGen
      [some sampleJd1, some sampleJd2, some sampleJd3]).2.1.filter
        (fun r => !r.success)).length = 1 ∧
    ((processBatchCoverLetters true (some sampleResume) sampleGen
      [some sampleJd1, some sampleJd2, some sampleJd3]).2.1.filter
        (fun r => r.success)).length = 2 :=
  batch_one_failing_target_never_aborts sampleResume sampleJd1 sampleJd2 sampleJd3
    sampleGen { coverId := "cover-j1", contentMd := "Dear Hiring Manager" }
    { coverId := "cover-j3", contentMd := "Dear Hiring Manager" } rfl rfl rfl

/-! Section: C4 -/

/-- C4: with `MAX_DAILY_REQUESTS = 45`, after 45 `incrementQuotaCount` calls
from a zero count on one day, `checkQuotaLimit` on that day answers `false`
(and leaves the state unchanged); on the first check of a different day the
count is reset to 0 before capacity is evaluated and the answer is `true`
with stored count 0. -/
theorem quota_gate_depletes_and_resets (d d' : ℕ) (s : QuotaState)
    (hcount : s.dailyRequestCount = 0) (hdate : s.lastResetDate = d) (hnew : d' ≠ d) :
    MAX_DAILY_REQUESTS = 45 ∧
    (checkQuotaLimit d (incrementQuotaCount^[45] s)).1 = false ∧
    (checkQuotaLimit d (incrementQuotaCount^[45] s)).2 = incrementQuotaCount^[45] s ∧
    (checkQuotaLimit d' (incrementQuotaCount^[45] s)).1 = true ∧
    (checkQuotaLimit d' (incrementQuotaCount^[45] s)).2.dailyRequestCount = 0 := by
  rw [quota_iterate, hcount, hdate]
  refine ⟨rfl, ?_, ?_, ?_, ?_⟩ <;> simp [checkQuotaLimit, hnew, MAX_DAILY_REQUESTS]

/-- Witness for C4 with day `0` rolling over to day `1`. -/
theorem quota_gate_depletes_and_resets_witness :
    MAX_DAILY_REQUESTS = 45 ∧
    (checkQuotaLimit 0 (incrementQuotaCount^[45] { dailyRequestCount := 0, lastResetDate := 0 })).1 = false ∧
    (checkQuotaLimit 0 (incrementQuotaCount^[45] { dailyRequestCount := 0, lastResetDate := 0 })).2 =
      incrementQuotaCount^[45] { dailyRequestCount := 0, lastResetDate := 0 } ∧
    (checkQuotaLimit 1 (incrementQuotaCount^[45] { dailyRequestCount := 0, lastResetDate := 0 })).1 = true ∧
    (checkQuotaLimit 1 (incrementQuotaCount^[45] { dailyRequestCount := 0, lastResetDate := 0 })).2.dailyRequestCount = 0 :=
  quota_gate_depletes_and_resets 0 1 _ rfl rfl (by decide)

/-! Section: C5 -/

/-- C5 counterexample: a channel with one subscribed connection whose
`readyState` is CLOSED receives nothing, so a publish to a channel with
`N = 1` subscribed connections does not deliver to every one of them as the
claim states. -/
theorem broadcast_closed_subscriber_counterexample :
    (List.lookup "score:r1:j1" closedConnRegistry =
      some [{ connId := 0, readyState := 3 }]) ∧
    broadcastToChannel (α := String) closedConnRegistry "score:r1:j1" "payload" = [] := by
  constructor
  · decide
  · decide

/-- C5 (amended): publishing to a channel with no entry or an empty
subscriber set performs no sends (and, being a total function, never
raises); publishing to a channel with subscribers serializes the message
once — every send carries the identical `{channel, data}` payload — and
delivers it to every subscribed connection whose `readyState` is OPEN. -/
theorem broadcast_publish_amended {α : Type} (reg : WsRegistry) (channel : String) (data : α) :
    (List.lookup channel reg = none → broadcastToChannel reg channel data = []) ∧
    (List.lookup channel reg = some [] → broadcastToChannel reg channel data = []) ∧
    (∀ p ∈ broadcastToChannel reg channel data,
      p.2 = { channel := channel, data := data : WsMessage α }) ∧
    (∀ conns, List.lookup channel reg = some conns →
      ∀ ws ∈ conns, ws.readyState = WS_OPEN →
        (ws, { channel := channel, data := data : WsMessage α }) ∈
          broadcastToChannel reg channel data) := by
  refine ⟨?_, ?_, ?_, ?_⟩
  · intro h; simp [broadcastToChannel, h]
  · intro h; simp [broadcastToChannel, h]
  · intro p hp
    unfold broadcastToChannel at hp
    cases hl : List.lookup channel reg with
    | none => rw [hl] at hp; simp at hp
    | some conns =>
      rw [hl] at hp
      simp only [List.mem_map, List.mem_filter] at hp
      obtain ⟨ws, _, hws⟩ := hp
      exact congrArg Prod.snd hws.symm
  · intro conns hl ws hmem hopen
    unfold broadcastToChannel
    rw [hl]
    simp only [List.mem_map, List.mem_filter]
    exact ⟨ws, ⟨hmem, by simp [hopen]⟩, rfl⟩

/-- Witness for C5 (amended): a two-subscriber channel (one open, one
closed); the open subscriber receives the serialized payload. -/
theorem broadcast_publish_amended_witness :
    (List.lookup "absent" ([] : WsRegistry) = none →
      broadcastToChannel (α := String) [] "absent" "x" = []) ∧
    (({ connId := 7, readyState := 1 } : WsConn),
      ({ channel := "batch:1", data := "progress" } : WsMessage String)) ∈
      broadcastToChannel
        [("batch:1", [{ connId := 7, readyState := 1 }, { connId := 8, readyState := 3 }])]
        "batch:1" "progress" := by
  constructor
  · exact (broadcast_publish_amended ([] : WsRegistry) "absent" "x").1
  · exact (broadcast_publish_amended
      [("batch:1", [{ connId := 7, readyState := 1 }, { connId := 8, readyState := 3 }])]
      "batch:1" "progress").2.2.2
      [{ connId := 7, readyState := 1 }, { connId := 8, readyState := 3 }]
      (by decide) { connId := 7, readyState := 1 } (by decide) (by decide)

/-! Section: C9 -/

/-- C9: the batch endpoint creates the job in status `pending` and returns
its id, so a status lookup before the background processor runs answers
`pending`; every status write the orchestrator performs moves forward along
`pending → running → {completed, error}`, and the terminal states have no
outgoing transitions. -/
theorem job_lifecycle_forward (store : List StoredJob) (freshId : ℕ)
    (hfresh : ∀ j ∈ store, j.jobId ≠ freshId)
    (jobFound : Bool) (resume : Option ResumeJson)
    (gen : JobDescRow → Except Unit CoverLetterDoc) (jds : List (Option JobDescRow)) :
    getJobStatus (enqueueBatchJob store freshId).2 (enqueueBatchJob store freshId).1 =
      some JobStatus.pending ∧
    List.Chain' statusStep
      (JobStatus.pending :: (processBatchCoverLetters jobFound resume gen jds).1) ∧
    (∀ s, ¬ statusStep JobStatus.completed s) ∧
    (∀ s, ¬ statusStep JobStatus.error s) := by
  refine ⟨getJobStatus_append_fresh store freshId hfresh, ?_, ?_, ?_⟩
  · cases jobFound with
    | false => simp [processBatchCoverLetters]
    | true =>
      cases resume with
      | none => simp [processBatchCoverLetters, List.chain'_cons, statusStep]
      | some r => simp [processBatchCoverLetters, List.chain'_cons, statusStep]
  · intro s; simp [statusStep]
  · intro s; simp [statusStep]

/-- Witness for C9: empty store, fresh id 0, a batch whose resume lookup
fails. -/
theorem job_lifecycle_forward_witness :
    getJobStatus (enqueueBatchJob [] 0).2 (enqueueBatchJob [] 0).1 = some JobStatus.pending ∧
    List.Chain' statusStep
      (JobStatus.pending :: (processBatchCoverLetters true none sampleGen [some sampleJd1]).1) ∧
    (∀ s, ¬ statusStep JobStatus.completed s) ∧
    (∀ s, ¬ statusStep JobStatus.error s) :=
  job_lifecycle_forward [] 0 (by simp) true none sampleGen [some sampleJd1]

/-! Section: C10 -/

/-- C10: a target whose job-description lookup returned `undefined` is
skipped silently — no results entry and no progress event is produced for it
— so the job completes with fewer results entries (2) than requested targets
(3); the per-target progress events name only the two present targets. -/
theorem batch_missing_jd_skipped_silently (resume : ResumeJson)
    (jd1 jd3 : JobDescRow) (gen : JobDescRow → Except Unit CoverLetterDoc)
    (c1 c3 : CoverLetterDoc)
    (h1 : gen jd1 = Except.ok c1) (h3 : gen jd3 = Except.ok c3) :
    (processBatchCoverLetters true (some resume) gen [some jd1, none, some jd3]).1 =
      [JobStatus.running, JobStatus.completed] ∧
    (processBatchCoverLetters true (some resume) gen [some jd1, none, some jd3]).2.1.map
      (fun r => r.jdId) = [jd1.jdId, jd3.jdId] ∧
    (processBatchCoverLetters true (some resume) gen [some jd1, none, some jd3]).2.1.length = 2 ∧
    (processBatchCoverLetters true (some resume) gen [some jd1, none, some jd3]).2.2.map
      (fun e => e.current) = [some jd1.title, some jd3.title, none] := by
  simp [processBatchCoverLetters, processTargetsAux, h1, h3]

/-- Witness for C10 at a concrete batch with the middle lookup missing. -/
theorem batch_missing_jd_skipped_silently_witness :
    (processBatchCoverLetters true (some sampleResume) sampleGen
      [some sampleJd1, none, some sampleJd3]).1 =
      [JobStatus.running, JobStatus.completed] ∧
    (processBatchCoverLetters true (some sampleResume) sampleGen
      [some sampleJd1, none, some sampleJd3]).2.1.map (fun r => r.jdId) =
      [sampleJd1.jdId, sampleJd3.jdId] ∧
    (processBatchCoverLetters true (some sampleResume) sampleGen
      [some sampleJd1, none, some sampleJd3]).2.1.length = 2 ∧
    (processBatchCoverLetters true (some sampleResume) sampleGen
      [some sampleJd1, none, some sampleJd3]).2.2.map (fun e => e.current) =
      [some sampleJd1.title, some sampleJd3.title, none] :=
  batch_missing_jd_skipped_silently sampleResume sampleJd1 sampleJd3 sampleGen
    { coverId := "cover-j1", contentMd := "Dear Hiring Manager" }
    { coverId := "cover-j3", contentMd := "Dear Hiring Manager" } rfl rfl

/-! Section: C6 -/

theorem cks_matched_def (rt jt : String) :
    (calculateKeywordScore rt jt).matched =
      ((importantJDKeywords jt).filter (fun k => (extractKeywords rt).contains k)).length := rfl

theorem cks_total_def (rt jt : String) :
    (calculateKeywordScore rt jt).total = (importantJDKeywords jt).length := rfl

theorem cks_missing_def (rt jt : String) :
    (calculateKeywordScore rt jt).missing =
      ((importantJDKeywords jt).filter (fun k => ¬ (extractKeywords rt).contains k)).take 10 := rfl

theorem cks_score_def (rt jt : String) :
    (calculateKeywordScore rt jt).score =
      if 0 < (calculateKeywordScore rt jt).total
      then jsRound (((calculateKeywordScore rt jt).matched : ℚ) /
        ((calculateKeywordScore rt jt).total : ℚ) * 40)
      else 0 := rfl

/-- C6 counterexample: for target and candidate text `"aws"` the engine scores
40 (the three-letter common-tech keyword `aws` is kept by
`importantJDKeywords`), while the length > 3 tokenization of the claim yields an
empty keyword set and hence score 0. -/
theorem keyword_coverage_counterexample :
    (calculateKeywordScore "aws" "aws").total = 1 ∧
    (calculateKeywordScore "aws" "aws").score = 40 ∧
    (claimImportantKeywords "aws").length = 0 ∧
    claimKeywordScore "aws" "aws" = 0 := by
  refine ⟨by decide, ?_, by decide, by decide⟩
  have hm : (calculateKeywordScore "aws" "aws").matched = 1 := by decide
  have ht : (calculateKeywordScore "aws" "aws").total = 1 := by decide
  rw [cks_score_def, hm, ht]
  norm_num [jsRound]

/-- C6 (amended): the scored keyword set is the extracted target keywords
of length > 3 together with shorter entries of the fixed common-technology
list (plus the multi-word phrase list, which `extractKeywords` folds in);
over that set the sub-score is `round(40 × matched / total)`, the reported
missing list has at most 10 entries, an empty set scores exactly 0 with no
division error, and the score always lies in [0, 40]. -/
theorem keyword_coverage_amended (resumeText jdText : String) :
    (calculateKeywordScore resumeText jdText).total = (importantJDKeywords jdText).length ∧
    (calculateKeywordScore resumeText jdText).missing.length ≤ 10 ∧
    ((calculateKeywordScore resumeText jdText).total = 0 →
      (calculateKeywordScore resumeText jdText).score = 0) ∧
    (0 < (calculateKeywordScore resumeText jdText).total →
      (calculateKeywordScore resumeText jdText).score =
        jsRound ((40 : ℚ) * ((calculateKeywordScore resumeText jdText).matched : ℚ) /
          ((calculateKeywordScore resumeText jdText).total : ℚ))) ∧
    (calculateKeywordScore resumeText jdText).matched ≤
      (calculateKeywordScore resumeText jdText).total ∧
    0 ≤ (calculateKeywordScore resumeText jdText).score ∧
    (calculateKeywordScore resumeText jdText).score ≤ 40 := by
  have hmt : (calculateKeywordScore resumeText jdText).matched ≤
      (calculateKeywordScore resumeText jdText).total := by
    rw [cks_matched_def, cks_total_def]
    exact List.length_filter_le _ _
  refine ⟨cks_total_def resumeText jdText, ?_, ?_, ?_, hmt, ?_, ?_⟩
  · rw [cks_missing_def]
    exact List.length_take_le 10 _
  · intro h
    rw [cks_score_def, h]
    simp
  · intro h
    rw [cks_score_def, if_pos h]
    have : ((calculateKeywordScore resumeText jdText).matched : ℚ) /
        ((calculateKeywordScore resumeText jdText).total : ℚ) * 40 =
        (40 : ℚ) * ((calculateKeywordScore resumeText jdText).matched : ℚ) /
        ((calculateKeywordScore resumeText jdText).total : ℚ) := by ring
    rw [this]
  · rw [cks_score_def]
    split_ifs with h
    · exact jsRound_nonneg (by positivity)
    · norm_num
  · rw [cks_score_def]
    split_ifs with h
    · refine jsRound_le ?_
      have ht0 : (0 : ℚ) < ((calculateKeywordScore resumeText jdText).total : ℚ) := by
        exact_mod_cast h
      have hle : ((calculateKeywordScore resumeText jdText).matched : ℚ) ≤
          ((calculateKeywordScore resumeText jdText).total : ℚ) := by exact_mod_cast hmt
      have hdiv : ((calculateKeywordScore resumeText jdText).matched : ℚ) /
          ((calculateKeywordScore resumeText jdText).total : ℚ) ≤ 1 :=
        (div_le_one ht0).mpr hle
      push_cast
      nlinarith
    · norm_num

/-- Witness for C6 (amended) at target text with one long and one short
keyword. -/
theorem keyword_coverage_amended_witness :
    0 < (calculateKeywordScore "python developer" "python aws").total ∧
    (calculateKeywordScore "python developer" "python aws").score =
      jsRound ((40 : ℚ) * ((calculateKeywordScore "python developer" "python aws").matched : ℚ) /
        ((calculateKeywordScore "python developer" "python aws").total : ℚ)) :=
  ⟨by decide, (keyword_coverage_amended "python developer" "python aws").2.2.2.1 (by decide)⟩

/-! Section: C7 -/

theorem cqs_totalBullets_def (resume : ResumeJson) :
    (calculateQuantificationScore resume).totalBullets =
      (resume.experience.map (fun exp => exp.bullets.length)).sum := rfl

theorem cqs_quantified_def (resume : ResumeJson) :
    (calculateQuantificationScore resume).quantifiedBullets =
      (resume.experience.map (fun exp => (exp.bullets.filter bulletHasMetric).length)).sum := rfl

theorem cqs_score_def (resume : ResumeJson) :
    (calculateQuantificationScore resume).score =
      jsRound ((if 0 < (calculateQuantificationScore resume).totalBullets
        then ((calculateQuantificationScore resume).quantifiedBullets : ℚ) /
          ((calculateQuantificationScore resume).totalBullets : ℚ)
        else 0) * 15) := rfl

theorem cqs_quantified_le (resume : ResumeJson) :
    (calculateQuantificationScore resume).quantifiedBullets ≤
      (calculateQuantificationScore resume).totalBullets := by
  rw [cqs_quantified_def, cqs_totalBullets_def]
  exact List.sum_le_sum (fun exp _ => List.length_filter_le _ _)

/-- C7: a candidate with zero experience bullets gets quantification
sub-score 0 with no division error; in general the score is
`round(15 × quantified / total)` over the experience bullets, a bullet
counting as quantified exactly when it matches the metric pattern
(equivalently: contains a decimal digit), and the score stays in [0, 15]. -/
theorem quantification_zero_bullets_safe (resume : ResumeJson) :
    ((calculateQuantificationScore resume).totalBullets = 0 →
      (calculateQuantificationScore resume).score = 0) ∧
    (0 < (calculateQuantificationScore resume).totalBullets →
      (calculateQuantificationScore resume).score =
        jsRound ((15 : ℚ) * ((calculateQuantificationScore resume).quantifiedBullets : ℚ) /
          ((calculateQuantificationScore resume).totalBullets : ℚ))) ∧
    (∀ b : String, bulletHasMetric b = true ↔ ∃ c ∈ b.data, c.isDigit = true) ∧
    0 ≤ (calculateQuantificationScore resume).score ∧
    (calculateQuantificationScore resume).score ≤ 15 := by
  have hq := cqs_quantified_le resume
  refine ⟨?_, ?_, ?_, ?_, ?_⟩
  · intro h
    rw [cqs_score_def, h]
    norm_num [jsRound]
  · intro h
    rw [cqs_score_def, if_pos h]
    have : ((calculateQuantificationScore resume).quantifiedBullets : ℚ) /
        ((calculateQuantificationScore resume).totalBullets : ℚ) * 15 =
        (15 : ℚ) * ((calculateQuantificationScore resume).quantifiedBullets : ℚ) /
        ((calculateQuantificationScore resume).totalBullets : ℚ) := by ring
    rw [this]
  · intro b
    simp [bulletHasMetric, List.any_eq_true]
  · rw [cqs_score_def]
    refine jsRound_nonneg ?_
    split_ifs with h
    · positivity
    · norm_num
  · rw [cqs_score_def]
    refine jsRound_le ?_
    split_ifs with h
    · have ht0 : (0 : ℚ) < ((calculateQuantificationScore resume).totalBullets : ℚ) := by
        exact_mod_cast h
      have hle : ((calculateQuantificationScore resume).quantifiedBullets : ℚ) ≤
          ((calculateQuantificationScore resume).totalBullets : ℚ) := by exact_mod_cast hq
      have hdiv : ((calculateQuantificationScore resume).quantifiedBullets : ℚ) /
          ((calculateQuantificationScore resume).totalBullets : ℚ) ≤ 1 :=
        (div_le_one ht0).mpr hle
      push_cast
      nlinarith
    · norm_num

/-- Witness for C7: `sampleResume` has two bullets, one quantified, and a
resume with no experience scores 0. -/
theorem quantification_zero_bullets_safe_witness :
    ((calculateQuantificationScore
      { personalInfo := { name := "A", email := "a@b.c", phone := "", location := "" },
        summary := "", experience := [], skills := [], education := none }).totalBullets = 0 →
      (calculateQuantificationScore
        { personalInfo := { name := "A", email := "a@b.c", phone := "", location := "" },
          summary := "", experience := [], skills := [], education := none }).score = 0) ∧
    (calculateQuantificationScore
      { personalInfo := { name := "A", email := "a@b.c", phone := "", location := "" },
        summary := "", experience := [], skills := [], education := none }).score = 0 ∧
    0 < (calculateQuantificationScore sampleResume).totalBullets ∧
    (calculateQuantificationScore sampleResume).score =
      jsRound ((15 : ℚ) * ((calculateQuantificationScore sampleResume).quantifiedBullets : ℚ) /
        ((calculateQuantificationScore sampleResume).totalBullets : ℚ)) := by
  refine ⟨(quantification_zero_bullets_safe _).1, (quantification_zero_bullets_safe _).1 (by decide),
    by decide, (quantification_zero_bullets_safe sampleResume).2.1 (by decide)⟩

/-! Section: C8 -/

/-- C8 counterexample: on the empty text (no words, no sentences) the
readability function returns score 5, which is none of 10, 7, 4. -/
theorem readability_empty_text_counterexample :
    (calculateReadabilityScore "").score = 5 ∧
    ¬ ((calculateReadabilityScore "").score = 10 ∨ (calculateReadabilityScore "").score = 7 ∨
      (calculateReadabilityScore "").score = 4) := by
  decide

/-- C8 (amended): whenever the text has at least one word and at least one
sentence segment the readability sub-score is one of 10, 7, 4 (the 8–12
band, the 6–14 band, or outside); when the text has no sentence segments or
no words the function short-circuits to score 5; so the score is always one
of 10, 7, 4, 5. -/
theorem readability_band_amended (text : String) :
    ((sentencesOf text ≠ [] ∧ wordsOf text ≠ []) →
      ((calculateReadabilityScore text).score = 10 ∨
       (calculateReadabilityScore text).score = 7 ∨
       (calculateReadabilityScore text).score = 4)) ∧
    ((sentencesOf text = [] ∨ wordsOf text = []) →
      (calculateReadabilityScore text).score = 5) ∧
    ((calculateReadabilityScore text).score = 10 ∨
     (calculateReadabilityScore text).score = 7 ∨
     (calculateReadabilityScore text).score = 4 ∨
     (calculateReadabilityScore text).score = 5) := by
  simp only [calculateReadabilityScore]
  by_cases h : (sentencesOf text).length = 0 ∨ (wordsOf text).length = 0
  · rw [if_pos h]
    refine ⟨?_, ?_, ?_⟩
    · intro hne
      rcases h with h | h
      · exact absurd (List.length_eq_zero.mp h) hne.1
      · exact absurd (List.length_eq_zero.mp h) hne.2
    · intro _; rfl
    · simp
  · rw [if_neg h]
    refine ⟨?_, ?_, ?_⟩
    · intro _
      split_ifs <;> simp
    · intro hc
      exfalso
      rcases hc with hc | hc
      · exact h (Or.inl (by rw [hc]; rfl))
      · exact h (Or.inr (by rw [hc]; rfl))
    · split_ifs <;> simp

/-- Witness for C8 (amended) on a short sentence. -/
theorem readability_band_amended_witness :
    (calculateReadabilityScore "Our teams ship reliable software quickly.").score = 10 ∨
    (calculateReadabilityScore "Our teams ship reliable software quickly.").score = 7 ∨
    (calculateReadabilityScore "Our teams ship reliable software quickly.").score = 4 :=
  (readability_band_amended "Our teams ship reliable software quickly.").1
    ⟨by decide, by decide⟩

/-! Section: C2 -/

theorem clamp_bounds (hi x : ℚ) (h : 0 ≤ hi) :
    0 ≤ min hi (max 0 x) ∧ min hi (max 0 x) ≤ hi :=
  ⟨le_min h (le_max_left 0 x), min_le_left hi (max 0 x)⟩

theorem sg_keywords_score (a : GeminiAnalysis) :
    (sanitizeGeminiResult a).breakdown.keywords.score =
      min 40 (max 0 (jsOrQ (a.keywords.bind (fun k => k.score)) 0)) := rfl

theorem sg_relevancy_score (a : GeminiAnalysis) :
    (sanitizeGeminiResult a).breakdown.relevancy.score =
      min 25 (max 0 (jsOrQ (a.relevancy.bind (fun r => r.score)) 0)) := rfl

theorem sg_quantification_score (a : GeminiAnalysis) :
    (sanitizeGeminiResult a).breakdown.quantification.score =
      min 15 (max 0 (jsOrQ (a.quantification.bind (fun q => q.score)) 0)) := rfl

theorem sg_formatting_score (a : GeminiAnalysis) :
    (sanitizeGeminiResult a).breakdown.formatting.score =
      min 10 (max 0 (jsOrQ (a.formatting.bind (fun f => f.score)) 0)) := rfl

theorem sg_readability_score (a : GeminiAnalysis) :
    (sanitizeGeminiResult a).breakdown.readability.score =
      min 10 (max 0 (jsOrQ (a.readability.bind (fun r => r.score)) 0)) := rfl

/-- C2: `computeGeminiATSScore` never propagates an error: with no usable API
key, with the quota gate closed, when the call throws, or when the response
is unparseable, it returns the deterministic fallback result; on a
successfully parsed response it returns the sanitized result, whose five
sub-scores are clamped into [0,40], [0,25], [0,15], [0,10] and [0,10] before
use. -/
theorem gemini_score_never_raises (resume : ResumeJson) (jdText : String)
    (apiKeyValid hasQuota : Bool) (outcome : GeminiCallOutcome) :
    (apiKeyValid = false →
      computeGeminiATSScore resume jdText apiKeyValid hasQuota outcome =
        getFallbackATSScore resume jdText) ∧
    (hasQuota = false →
      computeGeminiATSScore resume jdText apiKeyValid hasQuota outcome =
        getFallbackATSScore resume jdText) ∧
    (outcome = GeminiCallOutcome.threw →
      computeGeminiATSScore resume jdText apiKeyValid hasQuota outcome =
        getFallbackATSScore resume jdText) ∧
    (outcome = GeminiCallOutcome.parsed none →
      computeGeminiATSScore resume jdText apiKeyValid hasQuota outcome =
        getFallbackATSScore resume jdText) ∧
    (∀ analysis, apiKeyValid = true → hasQuota = true →
      outcome = GeminiCallOutcome.parsed (some analysis) →
      computeGeminiATSScore resume jdText apiKeyValid hasQuota outcome =
        sanitizeGeminiResult analysis ∧
      (0 ≤ (sanitizeGeminiResult analysis).breakdown.keywords.score ∧
        (sanitizeGeminiResult analysis).breakdown.keywords.score ≤ 40) ∧
      (0 ≤ (sanitizeGeminiResult analysis).breakdown.relevancy.score ∧
        (sanitizeGeminiResult analysis).breakdown.relevancy.score ≤ 25) ∧
      (0 ≤ (sanitizeGeminiResult analysis).breakdown.quantification.score ∧
        (sanitizeGeminiResult analysis).breakdown.quantification.score ≤ 15) ∧
      (0 ≤ (sanitizeGeminiResult analysis).breakdown.formatting.score ∧
        (sanitizeGeminiResult analysis).breakdown.formatting.score ≤ 10) ∧
      (0 ≤ (sanitizeGeminiResult analysis).breakdown.readability.score ∧
        (sanitizeGeminiResult analysis).breakdown.readability.score ≤ 10)) := by
  refine ⟨?_, ?_, ?_, ?_, ?_⟩
  · intro h; subst h; rfl
  · intro h; subst h; cases apiKeyValid <;> rfl
  · intro h; subst h; cases apiKeyValid <;> cases hasQuota <;> rfl
  · intro h; subst h; cases apiKeyValid <;> cases hasQuota <;> rfl
  · intro analysis hk hq ho
    subst hk; subst hq; subst ho
    refine ⟨rfl, ?_, ?_, ?_, ?_, ?_⟩
    · rw [sg_keywords_score]; exact clamp_bounds 40 _ (by norm_num)
    · rw [sg_relevancy_score]; exact clamp_bounds 25 _ (by norm_num)
    · rw [sg_quantification_score]; exact clamp_bounds 15 _ (by norm_num)
    · rw [sg_formatting_score]; exact clamp_bounds 10 _ (by norm_num)
    · rw [sg_readability_score]; exact clamp_bounds 10 _ (by norm_num)

/-- Witness for C2: a parsed response with out-of-contract values
(`sampleAnalysis`) is sanitized, and a throwing call degrades to the
fallback. -/
theorem gemini_score_never_raises_witness :
    (computeGeminiATSScore sampleResume "python api" true true
        (GeminiCallOutcome.parsed (some sampleAnalysis)) =
      sanitizeGeminiResult sampleAnalysis ∧
      (0 ≤ (sanitizeGeminiResult sampleAnalysis).breakdown.keywords.score ∧
        (sanitizeGeminiResult sampleAnalysis).breakdown.keywords.score ≤ 40) ∧
      (0 ≤ (sanitizeGeminiResult sampleAnalysis).breakdown.relevancy.score ∧
        (sanitizeGeminiResult sampleAnalysis).breakdown.relevancy.score ≤ 25) ∧
      (0 ≤ (sanitizeGeminiResult sampleAnalysis).breakdown.quantification.score ∧
        (sanitizeGeminiResult sampleAnalysis).breakdown.quantification.score ≤ 15) ∧
      (0 ≤ (sanitizeGeminiResult sampleAnalysis).breakdown.formatting.score ∧
        (sanitizeGeminiResult sampleAnalysis).breakdown.formatting.score ≤ 10) ∧
      (0 ≤ (sanitizeGeminiResult sampleAnalysis).breakdown.readability.score ∧
        (sanitizeGeminiResult sampleAnalysis).breakdown.readability.score ≤ 10)) ∧
    computeGeminiATSScore sampleResume "python api" true true GeminiCallOutcome.threw =
      getFallbackATSScore sampleResume "python api" :=
  ⟨(gemini_score_never_raises sampleResume "python api" true true
      (GeminiCallOutcome.parsed (some sampleAnalysis))).2.2.2.2 sampleAnalysis rfl rfl rfl,
   (gemini_score_never_raises sampleResume "python api" true true
      GeminiCallOutcome.threw).2.2.1 rfl⟩

/-! Section: C1 -/

theorem keywordScore_bounds (rt jt : String) :
    0 ≤ (calculateKeywordScore rt jt).score ∧ (calculateKeywordScore rt jt).score ≤ 40 := by
  have hmt : (calculateKeywordScore rt jt).matched ≤ (calculateKeywordScore rt jt).total := by
    rw [cks_matched_def, cks_total_def]
    exact List.length_filter_le _ _
  rw [cks_score_def]
  split_ifs with h
  · constructor
    · exact jsRound_nonneg (by positivity)
    · refine jsRound_le ?_
      have ht0 : (0 : ℚ) < ((calculateKeywordScore rt jt).total : ℚ) := by exact_mod_cast h
      have hle : ((calculateKeywordScore rt jt).matched : ℚ) ≤
          ((calculateKeywordScore rt jt).total : ℚ) := by exact_mod_cast hmt
      have hdiv : ((calculateKeywordScore rt jt).matched : ℚ) /
          ((calculateKeywordScore rt jt).total : ℚ) ≤ 1 := (div_le_one ht0).mpr hle
      push_cast
      nlinarith
  · norm_num

theorem quantScore_bounds (resume : ResumeJson) :
    0 ≤ (calculateQuantificationScore resume).score ∧
    (calculateQuantificationScore resume).score ≤ 15 := by
  have hq := cqs_quantified_le resume
  rw [cqs_score_def]
  constructor
  · refine jsRound_nonneg ?_
    split_ifs with h
    · positivity
    · norm_num
  · refine jsRound_le ?_
    split_ifs with h
    · have ht0 : (0 : ℚ) < ((calculateQuantificationScore resume).totalBullets : ℚ) := by
        exact_mod_cast h
      have hle : ((calculateQuantificationScore resume).quantifiedBullets : ℚ) ≤
          ((calculateQuantificationScore resume).totalBullets : ℚ) := by exact_mod_cast hq
      have hdiv : ((calculateQuantificationScore resume).quantifiedBullets : ℚ) /
          ((calculateQuantificationScore resume).totalBullets : ℚ) ≤ 1 :=
        (div_le_one ht0).mpr hle
      push_cast
      nlinarith
    · norm_num

theorem formattingScore_bounds (resume : ResumeJson) :
    0 ≤ (calculateFormattingScore resume).score ∧
    (calculateFormattingScore resume).score ≤ 10 := by
  simp only [calculateFormattingScore]
  constructor
  · exact le_max_left 0 _
  · refine max_le (by norm_num) (jsRound_le ?_)
    have hb : (0 : ℚ) ≤ (badBulletCount resume : ℚ) * (1/2) := by positivity
    split_ifs <;> push_cast <;> linarith

theorem readabilityScore_bounds (text : String) :
    0 ≤ (calculateReadabilityScore text).score ∧
    (calculateReadabilityScore text).score ≤ 10 := by
  simp only [calculateReadabilityScore]
  split_ifs <;> norm_num

theorem relevancyBase_bounds (k : ℤ) (hk : 0 ≤ k) :
    0 ≤ min 25 (jsRound ((k : ℚ) * (6/10) + 10)) ∧
    min 25 (jsRound ((k : ℚ) * (6/10) + 10)) ≤ 25 := by
  constructor
  · refine le_min (by norm_num) (jsRound_nonneg ?_)
    have hk0 : (0 : ℚ) ≤ (k : ℚ) := by exact_mod_cast hk
    linarith
  · exact min_le_left _ _

theorem cas_keywords (resume : ResumeJson) (jd : String) :
    (computeATSScore resume jd).breakdown.keywords =
      calculateKeywordScore (computeATSScoreText resume) jd := rfl

theorem cas_relevancy_score (resume : ResumeJson) (jd : String) :
    (computeATSScore resume jd).breakdown.relevancy.score =
      min 25 (jsRound (((calculateKeywordScore (computeATSScoreText resume) jd).score : ℚ) *
        (6/10) + 10)) := rfl

theorem cas_quantification (resume : ResumeJson) (jd : String) :
    (computeATSScore resume jd).breakdown.quantification =
      calculateQuantificationScore resume := rfl

theorem cas_formatting (resume : ResumeJson) (jd : String) :
    (computeATSScore resume jd).breakdown.formatting = calculateFormattingScore resume := rfl

theorem cas_readability (resume : ResumeJson) (jd : String) :
    (computeATSScore resume jd).breakdown.readability =
      calculateReadabilityScore (computeATSScoreText resume ++ " " ++ jd) := rfl

theorem caswe_some_relevancy (resume : ResumeJson) (jd : String) (re je : List ℝ) :
    (computeATSScoreWithEmbeddings resume jd (some re) (some je)).breakdown.relevancy.score =
      jsRoundR (calculateCosineSimilarity re je * 25) := rfl

theorem crs_total (text : String) : (calculateReadabilityScore text).total = 10 := by
  simp only [calculateReadabilityScore]
  split_ifs <;> rfl

theorem caswe_keywords (resume : ResumeJson) (jd : String) (rE jE : Option (List ℝ)) :
    (computeATSScoreWithEmbeddings resume jd rE jE).breakdown.keywords =
      (computeATSScore resume jd).breakdown.keywords := by
  cases rE <;> cases jE <;> rfl

theorem caswe_quantification (resume : ResumeJson) (jd : String) (rE jE : Option (List ℝ)) :
    (computeATSScoreWithEmbeddings resume jd rE jE).breakdown.quantification =
      (computeATSScore resume jd).breakdown.quantification := by
  cases rE <;> cases jE <;> rfl

theorem caswe_formatting (resume : ResumeJson) (jd : String) (rE jE : Option (List ℝ)) :
    (computeATSScoreWithEmbeddings resume jd rE jE).breakdown.formatting =
      (computeATSScore resume jd).breakdown.formatting := by
  cases rE <;> cases jE <;> rfl

theorem caswe_readability (resume : ResumeJson) (jd : String) (rE jE : Option (List ℝ)) :
    (computeATSScoreWithEmbeddings resume jd rE jE).breakdown.readability =
      (computeATSScore resume jd).breakdown.readability := by
  cases rE <;> cases jE <;> rfl

theorem caswe_relevancy_total (resume : ResumeJson) (jd : String) (rE jE : Option (List ℝ)) :
    (computeATSScoreWithEmbeddings resume jd rE jE).breakdown.relevancy.total = 25 := by
  cases rE <;> cases jE <;> rfl

theorem caswe_overall (resume : ResumeJson) (jd : String) (rE jE : Option (List ℝ)) :
    (computeATSScoreWithEmbeddings resume jd rE jE).overall =
      (computeATSScoreWithEmbeddings resume jd rE jE).breakdown.keywords.score +
      (computeATSScoreWithEmbeddings resume jd rE jE).breakdown.relevancy.score +
      (computeATSScoreWithEmbeddings resume jd rE jE).breakdown.quantification.score +
      (computeATSScoreWithEmbeddings resume jd rE jE).breakdown.formatting.score +
      (computeATSScoreWithEmbeddings resume jd rE jE).breakdown.readability.score := by
  cases rE <;> cases jE <;> rfl

theorem caswe_base_relevancy (resume : ResumeJson) (jd : String) (rE jE : Option (List ℝ))
    (h : rE = none ∨ jE = none) :
    (computeATSScoreWithEmbeddings resume jd rE jE).breakdown.relevancy.score =
      (computeATSScore resume jd).breakdown.relevancy.score := by
  rcases h with h | h
  · subst h; cases jE <;> rfl
  · subst h; cases rE <;> rfl

/-- C1 counterexample: with embeddings `[1]` and `[-1]` the cosine similarity
is −1, so the enhanced relevancy sub-score is −25 — outside [0, 25] — even
though its `maxPoints` is 25.  Hence the claimed bound that every sub-score
lies in [0, maxPoints] fails for `computeATSScoreWithEmbeddings`. -/
theorem score_embeddings_negative_relevancy_counterexample :
    (computeATSScoreWithEmbeddings sampleResume "python" (some [1])
      (some [-1])).breakdown.relevancy.score = -25 ∧
    ¬ (0 ≤ (computeATSScoreWithEmbeddings sampleResume "python" (some [1])
      (some [-1])).breakdown.relevancy.score) := by
  have hcos : calculateCosineSimilarity [1] [-1] = -1 := by
    simp [calculateCosineSimilarity, Real.sqrt_one]
  have hs : (computeATSScoreWithEmbeddings sampleResume "python" (some [1])
      (some [-1])).breakdown.relevancy.score = -25 := by
    rw [caswe_some_relevancy, hcos]
    unfold jsRoundR
    rw [show (-1 : ℝ) * 25 + 1/2 = -49/2 by norm_num]
    rw [Int.floor_eq_iff]
    constructor <;> norm_num
  exact ⟨hs, by rw [hs]; norm_num⟩

/-- C1 (amended): the five maxPoints are the fixed constants 40, 25, 15, 10,
10 summing to 100 and `overall` is the sum of the five sub-scores for both
scoring functions; every sub-score of `computeATSScore` lies in
[0, maxPoints], and so do the keyword, quantification, formatting and
readability sub-scores of `computeATSScoreWithEmbeddings` — but when both
embeddings are supplied its relevancy sub-score equals
`round(25 × cosineSimilarity)`, which can leave [0, 25] (it is −25 for
opposed embeddings); with an embedding missing the relevancy sub-score is the
base one and stays within [0, 25]. -/
theorem score_breakdown_invariants (resume : ResumeJson) (jdText : String)
    (resumeEmbedding jdEmbedding : Option (List ℝ)) :
    (keywordsMaxPoints = 40 ∧ keywordsMaxPoints + 25 + 15 + 10 + 10 = 100) ∧
    ((computeATSScore resume jdText).breakdown.relevancy.total = 25 ∧
     (computeATSScore resume jdText).breakdown.quantification.total = 15 ∧
     (computeATSScore resume jdText).breakdown.formatting.total = 10 ∧
     (computeATSScore resume jdText).breakdown.readability.total = 10) ∧
    ((0 ≤ (computeATSScore resume jdText).breakdown.keywords.score ∧
      (computeATSScore resume jdText).breakdown.keywords.score ≤ (keywordsMaxPoints : ℤ)) ∧
     (0 ≤ (computeATSScore resume jdText).breakdown.relevancy.score ∧
      (computeATSScore resume jdText).breakdown.relevancy.score ≤ 25) ∧
     (0 ≤ (computeATSScore resume jdText).breakdown.quantification.score ∧
      (computeATSScore resume jdText).breakdown.quantification.score ≤ 15) ∧
     (0 ≤ (computeATSScore resume jdText).breakdown.formatting.score ∧
      (computeATSScore resume jdText).breakdown.formatting.score ≤ 10) ∧
     (0 ≤ (computeATSScore resume jdText).breakdown.readability.score ∧
      (computeATSScore resume jdText).breakdown.readability.score ≤ 10)) ∧
    (computeATSScore resume jdText).overall =
      (computeATSScore resume jdText).breakdown.keywords.score +
      (computeATSScore resume jdText).breakdown.relevancy.score +
      (computeATSScore resume jdText).breakdown.quantification.score +
      (computeATSScore resume jdText).breakdown.formatting.score +
      (computeATSScore resume jdText).breakdown.readability.score ∧
    ((computeATSScoreWithEmbeddings resume jdText resumeEmbedding
        jdEmbedding).breakdown.relevancy.total = 25 ∧
     (computeATSScoreWithEmbeddings resume jdText resumeEmbedding
        jdEmbedding).breakdown.quantification.total = 15 ∧
     (computeATSScoreWithEmbeddings resume jdText resumeEmbedding
        jdEmbedding).breakdown.formatting.total = 10 ∧
     (computeATSScoreWithEmbeddings resume jdText resumeEmbedding
        jdEmbedding).breakdown.readability.total = 10) ∧
    ((0 ≤ (computeATSScoreWithEmbeddings resume jdText resumeEmbedding
        jdEmbedding).breakdown.keywords.score ∧
      (computeATSScoreWithEmbeddings resume jdText resumeEmbedding
        jdEmbedding).breakdown.keywords.score ≤ (keywordsMaxPoints : ℤ)) ∧
     (0 ≤ (computeATSScoreWithEmbeddings resume jdText resumeEmbedding
        jdEmbedding).breakdown.quantification.score ∧
      (computeATSScoreWithEmbeddings resume jdText resumeEmbedding
        jdEmbedding).breakdown.quantification.score ≤ 15) ∧
     (0 ≤ (computeATSScoreWithEmbeddings resume jdText resumeEmbedding
        jdEmbedding).breakdown.formatting.score ∧
      (computeATSScoreWithEmbeddings resume jdText resumeEmbedding
        jdEmbedding).breakdown.formatting.score ≤ 10) ∧
     (0 ≤ (computeATSScoreWithEmbeddings resume jdText resumeEmbedding
        jdEmbedding).breakdown.readability.score ∧
      (computeATSScoreWithEmbeddings resume jdText resumeEmbedding
        jdEmbedding).breakdown.readability.score ≤ 10)) ∧
    (computeATSScoreWithEmbeddings resume jdText resumeEmbedding jdEmbedding).overall =
      (computeATSScoreWithEmbeddings resume jdText resumeEmbedding
        jdEmbedding).breakdown.keywords.score +
      (computeATSScoreWithEmbeddings resume jdText resumeEmbedding
        jdEmbedding).breakdown.relevancy.score +
      (computeATSScoreWithEmbeddings resume jdText resumeEmbedding
        jdEmbedding).breakdown.quantification.score +
      (computeATSScoreWithEmbeddings resume jdText resumeEmbedding
        jdEmbedding).breakdown.formatting.score +
      (computeATSScoreWithEmbeddings resume jdText resumeEmbedding
        jdEmbedding).breakdown.readability.score ∧
    (∀ re je, resumeEmbedding = some re → jdEmbedding = some je →
      (computeATSScoreWithEmbeddings resume jdText resumeEmbedding
        jdEmbedding).breakdown.relevancy.score =
        jsRoundR (calculateCosineSimilarity re je * 25)) ∧
    ((resumeEmbedding = none ∨ jdEmbedding = none) →
      0 ≤ (computeATSScoreWithEmbeddings resume jdText resumeEmbedding
        jdEmbedding).breakdown.relevancy.score ∧
      (computeATSScoreWithEmbeddings resume jdText resumeEmbedding
        jdEmbedding).breakdown.relevancy.score ≤ 25) := by
  have hkw := keywordScore_bounds (computeATSScoreText resume) jdText
  have hq := quantScore_bounds resume
  have hf := formattingScore_bounds resume
  have hr := readabilityScore_bounds (computeATSScoreText resume ++ " " ++ jdText)
  have hrel := relevancyBase_bounds
    (calculateKeywordScore (computeATSScoreText resume) jdText).score hkw.1
  refine ⟨⟨rfl, rfl⟩, ⟨rfl, rfl, rfl, ?_⟩, ?_, rfl, ?_, ?_, ?_, ?_, ?_⟩
  · rw [cas_readability]; exact crs_total _
  · exact ⟨by rw [cas_keywords]; exact hkw,
      by rw [cas_relevancy_score]; exact hrel,
      by rw [cas_quantification]; exact hq,
      by rw [cas_formatting]; exact hf,
      by rw [cas_readability]; exact hr⟩
  · refine ⟨caswe_relevancy_total resume jdText resumeEmbedding jdEmbedding, ?_, ?_, ?_⟩
    · rw [caswe_quantification, cas_quantification]; rfl
    · rw [caswe_formatting, cas_formatting]; rfl
    · rw [caswe_readability, cas_readability]; exact crs_total _
  · exact ⟨by rw [caswe_keywords, cas_keywords]; exact hkw,
      by rw [caswe_quantification, cas_quantification]; exact hq,
      by rw [caswe_formatting, cas_formatting]; exact hf,
      by rw [caswe_readability, cas_readability]; exact hr⟩
  · exact caswe_overall resume jdText resumeEmbedding jdEmbedding
  · intro re je h1 h2
    subst h1; subst h2
    exact caswe_some_relevancy resume jdText re je
  · intro h
    rw [caswe_base_relevancy resume jdText resumeEmbedding jdEmbedding h, cas_relevancy_score]
    exact hrel

/-- Witness for C1 at concrete embeddings: the relevancy equation with both
embeddings supplied, and the in-range relevancy with no embeddings. -/
theorem score_breakdown_invariants_witness :
    (computeATSScoreWithEmbeddings sampleResume "python" (some [1])
      (some [1])).breakdown.relevancy.score =
      jsRoundR (calculateCosineSimilarity [1] [1] * 25) ∧
    (0 ≤ (computeATSScoreWithEmbeddings sampleResume "python" none
      none).breakdown.relevancy.score ∧
     (computeATSScoreWithEmbeddings sampleResume "python" none
      none).breakdown.relevancy.score ≤ 25) :=
  ⟨(score_breakdown_invariants sampleResume "python" (some [1])
      (some [1])).2.2.2.2.2.2.2.1 [1] [1] rfl rfl,
   (score_breakdown_invariants sampleResume "python" none
      none).2.2.2.2.2.2.2.2 (Or.inl rfl)⟩
